import Mathlib

/-!
Shallow embedding of `src/trade_lib/weixin.py` (the Work-WeiXin webhook robot
client) and proofs about its message construction, input resolution, send
validation and CLI argument checking.

Conventions of the embedding:
* Python values that can appear inside a JSON request body are modelled by
  `PyVal`; Python truthiness of such values by `truthy`.
* `async def` functions that are *called without `await`* produce a coroutine
  object; where the source does this (`sender` passes `self.read_file(...)`
  un-awaited into `send_text` / `send_markdown` / `yaml.full_load`), the
  coroutine object is modelled by an explicit `Content.coro` constructor.
* Machine-level byte strings are `List Nat` with every element `< 256`.
-/

namespace Weixin

/-- PyVal models the Python values that can occur inside a request body or a
parsed JSON response: strings, dicts, lists, `None`, and an un-awaited
coroutine object produced by calling `WXRobot.read_file(path)` without
`await` (`path` is the argument the coroutine captured, `none` models
`read_file(None)`). -/
inductive PyVal where
  | vStr (s : String)
  | vDict (fields : List (String × PyVal))
  | vList (xs : List PyVal)
  | vNone
  | vCoro (path : Option String)

/-- Python truthiness for `PyVal`: empty strings, empty dicts, empty lists and
`None` are falsy; a coroutine object is truthy. -/
def truthy : PyVal → Bool
  | PyVal.vStr s => s ≠ ""
  | PyVal.vDict fields => !fields.isEmpty
  | PyVal.vList xs => !xs.isEmpty
  | PyVal.vNone => false
  | PyVal.vCoro _ => true

/-- truthyOpt is Python truthiness of an optional string (e.g. a default-`None`
parameter or `_args.get(k)`): `None` and the empty string are falsy. -/
def truthyOpt : Option String → Bool
  | some s => s ≠ ""
  | none => false

/-- Association-list lookup used to model Python `dict.get(key)`: first
binding wins, missing key gives `none` (Python `None`). -/
def lookupField : List (String × PyVal) → String → Option PyVal
  | [], _ => none
  | (k, v) :: rest, key => if k = key then some v else lookupField rest key

/-- jget models `d.get(key)` on a Python dict value; on a non-dict it returns
`none` (the real interpreter raises `AttributeError` there, which is equally
a non-`"ok"` outcome for every use below). -/
def jget : PyVal → String → Option PyVal
  | PyVal.vDict fields, key => lookupField fields key
  | _, _ => none

/-! ## Payload construction (`send_text`, `send_markdown`, `send_news`) -/

/-- text_body is the request body built by `WXRobot.send_text(content)`:
`{'msgtype': 'text', 'text': {'content': content}}`. -/
def text_body (content : PyVal) : PyVal :=
  PyVal.vDict [("msgtype", PyVal.vStr "text"),
               ("text", PyVal.vDict [("content", content)])]

/-- markdown_body is the request body built by `WXRobot.send_markdown(content)`:
`{'msgtype': 'markdown', 'markdown': {'content': content}}`. -/
def markdown_body (content : PyVal) : PyVal :=
  PyVal.vDict [("msgtype", PyVal.vStr "markdown"),
               ("markdown", PyVal.vDict [("content", content)])]

/-- news_body is the request body built by `WXRobot.send_news(articles)` once
the asserts have passed: `{'msgtype': 'news', 'news': {'articles': articles}}`.
Each article is a Python dict. -/
def news_body (articles : List (List (String × PyVal))) : PyVal :=
  PyVal.vDict [("msgtype", PyVal.vStr "news"),
               ("news", PyVal.vDict
                 [("articles", PyVal.vList (articles.map PyVal.vDict))])]

/-- article_ok models the per-article asserts of `send_news`:
`assert article.get('title')` and `assert article.get('url')` — Python
truthiness of the looked-up values. -/
def article_ok (article : List (String × PyVal)) : Bool :=
  (match lookupField article "title" with
    | some v => truthy v
    | none => false)
  && (match lookupField article "url" with
    | some v => truthy v
    | none => false)

/-- AssertError labels the assertion failures `send_news` can raise, in source
order: the length check (message `'Only support 1-8 articles'`), then the
per-article title/url checks. -/
inductive AssertError where
  | tooManyArticles
  | badArticle
deriving DecidableEq

/-- send_news_model is `WXRobot.send_news(articles)` up to the point where the
body is handed to `_send`: it first runs `assert len(articles) <= 8`, then the
per-article asserts, and on success returns the news body that is posted. -/
def send_news_model (articles : List (List (String × PyVal))) :
    Except AssertError PyVal :=
  if articles.length ≤ 8 then
    if articles.all article_ok then Except.ok (news_body articles)
    else Except.error AssertError.badArticle
  else Except.error AssertError.tooManyArticles

/-! ## Input resolution in `sender` (text/markdown branches) -/

/-- Content is the value the text/markdown branches of `sender` pass into
`send_text` / `send_markdown`: either the literal string `msg_data`, or — when
`msg_data` is falsy — the result of evaluating `self.read_file(msg_file_path)`
*without awaiting it*, i.e. a coroutine object capturing the path. -/
inductive Content where
  | str (s : String)
  | coro (path : Option String)
deriving DecidableEq

/-- resolveTM models the expression `msg_data or self.read_file(msg_file_path)`
in `sender` (lines 149/151): if `msg_data` is a truthy string it is the result
and `read_file` is not even called; otherwise the result is the un-awaited
`read_file` coroutine object.  Note the function takes no filesystem argument:
this expression never touches the filesystem, because the coroutine body only
runs when awaited, and it never is. -/
def resolveTM (msg_data : Option String) (msg_file_path : Option String) :
    Content :=
  match msg_data with
  | some s => if s ≠ "" then Content.str s else Content.coro msg_file_path
  | none => Content.coro msg_file_path

/-- read_file models the *body* of the coroutine `WXRobot.read_file(file_path)`
— what it returns when awaited: the file's text if the path exists, the empty
string otherwise.  The filesystem is a partial map from paths to text. -/
def read_file (fs : String → Option String) (file_path : String) : String :=
  match fs file_path with
  | some content => content
  | none => ""

/-! ## The `sender` dispatch -/

/-- PyError labels uncaught Python exceptions raised inside `sender` before
any payload is built. -/
inductive PyError where
  | typeError
deriving DecidableEq

/-- SenderAction records which `send_*` call the body of `sender` makes and
with which argument: the resolved `Content` for text/markdown, the path for a
local-file image, the URL string for a remote image, and for news the
un-awaited `read_file` coroutine that is handed to `yaml.full_load`. -/
inductive SenderAction where
  | sendText (c : Content)
  | sendMarkdown (c : Content)
  | sendImageLocal (path : String)
  | sendImageRemote (url : String)
  | sendNewsFrom (c : Content)
deriving DecidableEq

/-- sender_dispatch models the if/elif chain of `WXRobot.sender`:
which `send_*` call is made, as a function of the message type, the literal
data, the file path, and `os.path.exists` (the parameter `ex`).  The image
branch calls `os.path.exists(msg_file_path)`, which raises `TypeError` when
the path is `None`.  A `msg_type` matching no branch falls through the chain:
no call is made and the coroutine returns `None` normally. -/
def sender_dispatch (ex : String → Bool) (msg_type : String)
    (msg_data : Option String) (msg_file_path : Option String) :
    Except PyError (List SenderAction) :=
  if msg_type = "text" then
    Except.ok [SenderAction.sendText (resolveTM msg_data msg_file_path)]
  else if msg_type = "markdown" then
    Except.ok [SenderAction.sendMarkdown (resolveTM msg_data msg_file_path)]
  else if msg_type = "image" then
    match msg_file_path with
    | none => Except.error PyError.typeError
    | some p =>
      if ex p then Except.ok [SenderAction.sendImageLocal p]
      else Except.ok [SenderAction.sendImageRemote p]
  else if msg_type = "news" then
    Except.ok [SenderAction.sendNewsFrom (Content.coro msg_file_path)]
  else Except.ok []

/-! ## Transport (`WXRobot._send`) -/

/-- HttpRequest records one outbound HTTP POST: target URL, header list, and
JSON body. -/
structure HttpRequest where
  url : String
  headers : List (String × String)
  body : PyVal

/-- robot_url is the URL built in `WXRobot.__init__`:
the webhook endpoint with the robot key appended. -/
def robot_url (key : String) : String :=
  "https://qyapi.weixin.qq.com/cgi-bin/webhook/send?key=" ++ key

/-- robot_headers is the header dict built in `WXRobot.__init__`. -/
def robot_headers : List (String × String) :=
  [("Content-Type", "application/json")]

/-- send_requests is the list of HTTP requests a single call of
`WXRobot._send(body)` issues: exactly the one `session.post(...)`, with the
robot's URL and headers; the method never loops or retries. -/
def send_requests (key : String) (body : PyVal) : List HttpRequest :=
  [{ url := robot_url key, headers := robot_headers, body := body }]

/-- SendError labels the failures `_send` signals after the response arrives,
in source order: `assert resp.status == 200`, then
`assert r.get('errmsg') == 'ok'`. -/
inductive SendError where
  | badStatus
  | badErrmsg
deriving DecidableEq

/-- send_check models the response validation of `_send`: given the HTTP
status and the parsed JSON body `r`, it runs the two asserts and returns
`True` only when both pass.  `r.get('errmsg') == 'ok'` is true exactly when
the looked-up value is the string `"ok"`. -/
def send_check (status : Nat) (r : PyVal) : Except SendError Bool :=
  if status = 200 then
    match jget r "errmsg" with
    | some (PyVal.vStr s) =>
      if s = "ok" then Except.ok true else Except.error SendError.badErrmsg
    | _ => Except.error SendError.badErrmsg
  else Except.error SendError.badStatus

/-! ## Base64 (model of `base64.b64encode` / standard base64 decoding) -/

/-- b64chars is the standard base64 alphabet, index to character. -/
def b64chars : List Char :=
  "ABCDEFGHIJKLMNOPQRSTUVWXYZabcdefghijklmnopqrstuvwxyz0123456789+/".toList

/-- encChar maps a sextet value (`< 64`) to its base64 character. -/
def encChar (n : Nat) : Char := b64chars.getD n 'A'

/-- decChar maps a base64 character back to its sextet value, `none` for a
character outside the alphabet. -/
def decChar (c : Char) : Option Nat := b64chars.indexOf? c

/-- toSextets splits a byte string into big-endian 6-bit groups, exactly as
base64 encoding does: three bytes give four sextets; one or two trailing
bytes give two or three sextets with zero-padded low bits. -/
def toSextets : List Nat → List Nat
  | a :: b :: c :: rest =>
    a / 4 :: (a % 4 * 16 + b / 16) :: (b % 16 * 4 + c / 64) :: c % 64 ::
      toSextets rest
  | [a, b] => [a / 4, a % 4 * 16 + b / 16, b % 16 * 4]
  | [a] => [a / 4, a % 4 * 16]
  | [] => []

/-- b64padChars gives the `'='` padding appended for a byte string of the
given length: two for a final group of one byte, one for a group of two. -/
def b64padChars (len : Nat) : List Char :=
  match len % 3 with
  | 1 => ['=', '=']
  | 2 => ['=']
  | _ => []

/-- b64encodeStr models `base64.b64encode(bs).decode('utf-8')`: the sextets
rendered in the base64 alphabet, followed by `'='` padding to a multiple of
four characters. -/
def b64encodeStr (bs : List Nat) : String :=
  String.mk ((toSextets bs).map encChar ++ b64padChars bs.length)

/-- fromSextets reassembles bytes from 6-bit groups, inverting `toSextets`;
a single leftover sextet cannot arise from a byte string and is rejected. -/
def fromSextets : List Nat → Option (List Nat)
  | w :: x :: y :: z :: rest => do
    let bs ← fromSextets rest
    pure ((w * 4 + x / 16) :: (x % 16 * 16 + y / 4) :: (y % 4 * 64 + z) :: bs)
  | [w, x, y] => some [w * 4 + x / 16, x % 16 * 16 + y / 4]
  | [w, x] => some [w * 4 + x / 16]
  | [] => some []
  | [_] => none

/-- decChars decodes a run of base64 alphabet characters to their sextet
values, failing on any character outside the alphabet. -/
def decChars : List Char → Option (List Nat)
  | [] => some []
  | c :: rest => do
    let n ← decChar c
    let ns ← decChars rest
    pure (n :: ns)

/-- b64decodeStr is a standard base64 decoder: it splits the input at the
first `'='`, requires the tail to consist of `'='` only, decodes the body
characters to sextets and reassembles the bytes. -/
def b64decodeStr (s : String) : Option (List Nat) :=
  if (s.toList.dropWhile (fun c => c ≠ '=')).all (fun c => c = '=') then
    match decChars (s.toList.takeWhile (fun c => c ≠ '=')) with
    | some sextets => fromSextets sextets
    | none => none
  else none

/-! ## MD5 (model of `hashlib.md5(bs).hexdigest()`, per RFC 1321) -/

/-- md5K is the MD5 round-constant table
`K[i] = floor(abs(sin(i + 1)) * 2^32)`. -/
def md5K : List Nat :=
  [0xd76aa478, 0xe8c7b756, 0x242070db, 0xc1bdceee,
   0xf57c0faf, 0x4787c62a, 0xa8304613, 0xfd469501,
   0x698098d8, 0x8b44f7af, 0xffff5bb1, 0x895cd7be,
   0x6b901122, 0xfd987193, 0xa679438e, 0x49b40821,
   0xf61e2562, 0xc040b340, 0x265e5a51, 0xe9b6c7aa,
   0xd62f105d, 0x02441453, 0xd8a1e681, 0xe7d3fbc8,
   0x21e1cde6, 0xc33707d6, 0xf4d50d87, 0x455a14ed,
   0xa9e3e905, 0xfcefa3f8, 0x676f02d9, 0x8d2a4c8a,
   0xfffa3942, 0x8771f681, 0x6d9d6122, 0xfde5380c,
   0xa4beea44, 0x4bdecfa9, 0xf6bb4b60, 0xbebfbc70,
   0x289b7ec6, 0xeaa127fa, 0xd4ef3085, 0x04881d05,
   0xd9d4d039, 0xe6db99e5, 0x1fa27cf8, 0xc4ac5665,
   0xf4292244, 0x432aff97, 0xab9423a7, 0xfc93a039,
   0x655b59c3, 0x8f0ccc92, 0xffeff47d, 0x85845dd1,
   0x6fa87e4f, 0xfe2ce6e0, 0xa3014314, 0x4e0811a1,
   0xf7537e82, 0xbd3af235, 0x2ad7d2bb, 0xeb86d391]

/-- md5S is the per-round left-rotation amount table. -/
def md5S : List Nat :=
  [7, 12, 17, 22, 7, 12, 17, 22, 7, 12, 17, 22, 7, 12, 17, 22,
   5, 9, 14, 20, 5, 9, 14, 20, 5, 9, 14, 20, 5, 9, 14, 20,
   4, 11, 16, 23, 4, 11, 16, 23, 4, 11, 16, 23, 4, 11, 16, 23,
   6, 10, 15, 21, 6, 10, 15, 21, 6, 10, 15, 21, 6, 10, 15, 21]

/-- bnot32 is the 32-bit complement of a word `< 2^32`. -/
def bnot32 (x : Nat) : Nat := 4294967295 - x % 4294967296

/-- rotl32 rotates a 32-bit word left by `n` bits (`0 ≤ n < 32`). -/
def rotl32 (x n : Nat) : Nat :=
  x % 2 ^ (32 - n) * 2 ^ n + x / 2 ^ (32 - n)

/-- md5word reads the `g`-th little-endian 32-bit word of a 64-byte chunk. -/
def md5word (chunk : List Nat) (g : Nat) : Nat :=
  chunk.getD (4 * g) 0 + 256 * chunk.getD (4 * g + 1) 0 +
    65536 * chunk.getD (4 * g + 2) 0 + 16777216 * chunk.getD (4 * g + 3) 0

/-- md5step is one of the 64 MD5 rounds on the state `(a, b, c, d)`, using the
round's mixing function, message-word index, constant and rotation. -/
def md5step (chunk : List Nat) (st : Nat × Nat × Nat × Nat) (i : Nat) :
    Nat × Nat × Nat × Nat :=
  match st with
  | (a, b, c, d) =>
    let f :=
      if i < 16 then Nat.lor (Nat.land b c) (Nat.land (bnot32 b) d)
      else if i < 32 then Nat.lor (Nat.land d b) (Nat.land (bnot32 d) c)
      else if i < 48 then Nat.xor (Nat.xor b c) d
      else Nat.xor c (Nat.lor b (bnot32 d))
    let g :=
      if i < 16 then i
      else if i < 32 then (5 * i + 1) % 16
      else if i < 48 then (3 * i + 5) % 16
      else 7 * i % 16
    let x := (f + a + md5K.getD i 0 + md5word chunk g) % 4294967296
    (d, (b + rotl32 x (md5S.getD i 0)) % 4294967296, b, c)

/-- md5chunk runs the 64 rounds of one 64-byte chunk and adds the result to
the incoming state, word-wise mod `2^32`. -/
def md5chunk (st : Nat × Nat × Nat × Nat) (chunk : List Nat) :
    Nat × Nat × Nat × Nat :=
  match st, (List.range 64).foldl (md5step chunk) st with
  | (a0, b0, c0, d0), (a, b, c, d) =>
    ((a0 + a) % 4294967296, (b0 + b) % 4294967296,
     (c0 + c) % 4294967296, (d0 + d) % 4294967296)

/-- md5go folds `md5chunk` over the given number of leading 64-byte chunks of
the message. -/
def md5go : Nat → Nat × Nat × Nat × Nat → List Nat → Nat × Nat × Nat × Nat
  | 0, st, _ => st
  | n + 1, st, msg => md5go n (md5chunk st (msg.take 64)) (msg.drop 64)

/-- md5process folds `md5chunk` over a padded message, 64 bytes at a time;
the padded length is always a multiple of 64. -/
def md5process (st : Nat × Nat × Nat × Nat) (msg : List Nat) :
    Nat × Nat × Nat × Nat :=
  md5go (msg.length / 64) st msg

/-- md5pad appends the MD5 padding to a message: a `0x80` byte, zero bytes up
to 56 mod 64, then the original bit length as eight little-endian bytes. -/
def md5pad (msg : List Nat) : List Nat :=
  msg ++ 0x80 :: List.replicate ((119 - msg.length % 64) % 64) 0 ++
    (List.range 8).map (fun j => 8 * msg.length / 256 ^ j % 256)

/-- hexChars is the lowercase hexadecimal alphabet. -/
def hexChars : List Char := "0123456789abcdef".toList

/-- byteHex renders one byte as two lowercase hex characters. -/
def byteHex (b : Nat) : List Char :=
  [hexChars.getD (b / 16 % 16) '0', hexChars.getD (b % 16) '0']

/-- wordBytes serializes a 32-bit word as four little-endian bytes. -/
def wordBytes (v : Nat) : List Nat :=
  [v % 256, v / 256 % 256, v / 65536 % 256, v / 16777216 % 256]

/-- md5hex models `hashlib.md5(bytes(msg)).hexdigest()`: the full MD5 of the
byte string, rendered as 32 lowercase hex characters (digest words
little-endian, `a` first). -/
def md5hex (msg : List Nat) : String :=
  let st := md5process (0x67452301, 0xefcdab89, 0x98badcfe, 0x10325476)
    (md5pad msg)
  String.mk
    ((([st.1, st.2.1, st.2.2.1, st.2.2.2].map wordBytes).flatten.map
      byteHex).flatten)

/-! ## Image payload (`send_image`) -/

/-- ImgSource records how `send_image` obtained the raw image bytes: one
read of a local file or one HTTP GET of a remote URL. -/
inductive ImgSource where
  | fileRead (path : String)
  | httpGet (url : String)
deriving DecidableEq

/-- image_body is the request body `send_image` builds from the raw bytes it
just read or fetched: the base64 of `image_content` and the hex MD5 of the
same `image_content`, with no transcoding in between. -/
def image_body (image_content : List Nat) : PyVal :=
  PyVal.vDict [("msgtype", PyVal.vStr "image"),
               ("image", PyVal.vDict
                 [("base64", PyVal.vStr (b64encodeStr image_content)),
                  ("md5", PyVal.vStr (md5hex image_content))])]

/-- send_image_model is `WXRobot.send_image(local_file, remote_url)` up to the
point where the body reaches `_send`: a truthy `local_file` is read from the
filesystem `fs`, otherwise a truthy `remote_url` is fetched from the web `web`
by one GET, otherwise the function raises.  It returns the single byte source
used together with the body built from exactly those bytes. -/
def send_image_model (fs : String → Option (List Nat)) (web : String → List Nat)
    (local_file remote_url : Option String) :
    Except String (ImgSource × PyVal) :=
  if truthyOpt local_file then
    match fs (local_file.getD "") with
    | some bs => Except.ok (ImgSource.fileRead (local_file.getD ""), image_body bs)
    | none => Except.error "FileNotFoundError"
  else if truthyOpt remote_url then
    Except.ok (ImgSource.httpGet (remote_url.getD ""),
      image_body (web (remote_url.getD "")))
  else Except.error "Need provide local_file: str or remote_url: str"

/-- sender_image_model is the image branch of `sender`: `os.path.exists`
decides whether the path is passed to `send_image` as `local_file` or as
`remote_url`.  Existence on the filesystem `fs` is `(fs path).isSome`. -/
def sender_image_model (fs : String → Option (List Nat))
    (web : String → List Nat) (path : String) :
    Except String (ImgSource × PyVal) :=
  if (fs path).isSome then send_image_model fs web (some path) none
  else send_image_model fs web none (some path)

/-! ## CLI argument checking (`main`) -/

/-- Args is the `_args` dict `main` fills from `getopt`: each field is `none`
when the flag was absent and `some v` when it was given with value `v`. -/
structure Args where
  key : Option String
  type : Option String
  data : Option String
  file : Option String

/-- ConfigError labels the two configuration checks in `main` that print the
usage text and `exit(1)` before a `WXRobot` is even constructed. -/
inductive ConfigError where
  | missingKeyOrType
  | missingDataAndFile
deriving DecidableEq

/-- main_check models the validation prefix of `main` after `getopt`:
`if not _args.get('key') or not _args.get('type')` exits, then
`if not _args.get('data') and not _args.get('file')` exits; only when both
checks pass does `main` go on to build a `WXRobot` and call `rbt.sender` (all
network activity happens inside that call, downstream of an `ok` result). -/
def main_check (a : Args) : Except ConfigError Args :=
  if !truthyOpt a.key || !truthyOpt a.type then
    Except.error ConfigError.missingKeyOrType
  else if !truthyOpt a.data && !truthyOpt a.file then
    Except.error ConfigError.missingDataAndFile
  else Except.ok a

/-! ## Helper lemmas -/

/-- Unfolding `String.toList` on a literal character list. -/
theorem toList_mk (cs : List Char) : (String.mk cs).toList = cs := rfl

/-- Every sextet produced by `toSextets` from genuine bytes is `< 64`. -/
theorem toSextets_bound (bs : List Nat) (h : ∀ x ∈ bs, x < 256) :
    ∀ s ∈ toSextets bs, s < 64 := by
  induction bs using toSextets.induct with
  | case1 a b c rest ih =>
    have ha : a < 256 := h a (by simp)
    have hb : b < 256 := h b (by simp)
    have hc : c < 256 := h c (by simp)
    intro s hs
    simp only [toSextets, List.mem_cons] at hs
    rcases hs with rfl | rfl | rfl | rfl | hs
    · omega
    · omega
    · omega
    · omega
    · exact ih (fun x hx => h x (by simp [hx])) s hs
  | case2 a b =>
    have ha : a < 256 := h a (by simp)
    have hb : b < 256 := h b (by simp)
    intro s hs
    simp only [toSextets, List.mem_cons, List.not_mem_nil, or_false] at hs
    rcases hs with rfl | rfl | rfl <;> omega
  | case3 a =>
    have ha : a < 256 := h a (by simp)
    intro s hs
    simp only [toSextets, List.mem_cons, List.not_mem_nil, or_false] at hs
    rcases hs with rfl | rfl <;> omega
  | case4 => simp [toSextets]

/-- Decoding a base64 character recovers the sextet it encodes. -/
theorem decChar_encChar : ∀ n, n < 64 → decChar (encChar n) = some n := by
  decide

/-- No base64 alphabet character is the padding character. -/
theorem encChar_ne_pad : ∀ n, n < 64 → encChar n ≠ '=' := by
  decide

/-- decChars inverts `List.map encChar` on sextet values. -/
theorem decChars_map_encChar (ss : List Nat) (h : ∀ s ∈ ss, s < 64) :
    decChars (ss.map encChar) = some ss := by
  induction ss with
  | nil => rfl
  | cons s rest ih =>
    have h1 : decChar (encChar s) = some s := decChar_encChar s (h s (by simp))
    have h2 := ih (fun x hx => h x (by simp [hx]))
    simp [decChars, h1, h2]

/-- takeWhile walks past a prefix on which the predicate holds. -/
theorem takeWhile_append_all {α : Type} (p : α → Bool) (xs ys : List α)
    (h : ∀ x ∈ xs, p x = true) :
    (xs ++ ys).takeWhile p = xs ++ ys.takeWhile p := by
  induction xs with
  | nil => simp
  | cons x rest ih =>
    have hx : p x = true := h x (by simp)
    simp [List.takeWhile_cons, hx, ih (fun y hy => h y (by simp [hy]))]

/-- dropWhile discards a prefix on which the predicate holds. -/
theorem dropWhile_append_all {α : Type} (p : α → Bool) (xs ys : List α)
    (h : ∀ x ∈ xs, p x = true) :
    (xs ++ ys).dropWhile p = ys.dropWhile p := by
  induction xs with
  | nil => simp
  | cons x rest ih =>
    have hx : p x = true := h x (by simp)
    simp [List.dropWhile_cons, hx, ih (fun y hy => h y (by simp [hy]))]

/-- The padding block contains no character before the first `'='`. -/
theorem padChars_takeWhile (n : Nat) :
    (b64padChars n).takeWhile (fun c => c ≠ '=') = [] := by
  unfold b64padChars
  rcases h : n % 3 with _ | _ | k
  · rfl
  · rfl
  · rcases k with _ | k <;> rfl

/-- From the first `'='` on, the padding block is all `'='`. -/
theorem padChars_check (n : Nat) :
    ((b64padChars n).dropWhile (fun c => c ≠ '=')).all (fun c => c = '=') =
      true := by
  unfold b64padChars
  rcases h : n % 3 with _ | _ | k
  · rfl
  · rfl
  · rcases k with _ | k <;> rfl

/-- fromSextets inverts `toSextets` on genuine byte strings. -/
theorem fromSextets_toSextets (bs : List Nat) (h : ∀ x ∈ bs, x < 256) :
    fromSextets (toSextets bs) = some bs := by
  induction bs using toSextets.induct with
  | case1 a b c rest ih =>
    have ha : a < 256 := h a (by simp)
    have hb : b < 256 := h b (by simp)
    have hc : c < 256 := h c (by simp)
    have ihr := ih (fun x hx => h x (by simp [hx]))
    have e1 : a / 4 * 4 + (a % 4 * 16 + b / 16) / 16 = a := by omega
    have e2 : (a % 4 * 16 + b / 16) % 16 * 16 + (b % 16 * 4 + c / 64) / 4 = b := by
      omega
    have e3 : (b % 16 * 4 + c / 64) % 4 * 64 + c % 64 = c := by omega
    simp only [toSextets, fromSextets, ihr, Option.bind_eq_bind,
      Option.some_bind, e1, e2, e3]
    rfl
  | case2 a b =>
    have ha : a < 256 := h a (by simp)
    have hb : b < 256 := h b (by simp)
    have e1 : a / 4 * 4 + (a % 4 * 16 + b / 16) / 16 = a := by omega
    have e2 : (a % 4 * 16 + b / 16) % 16 * 16 + b % 16 * 4 / 4 = b := by omega
    simp only [toSextets, fromSextets, e1, e2]
  | case3 a =>
    have ha : a < 256 := h a (by simp)
    have e1 : a / 4 * 4 + a % 4 * 16 / 16 = a := by omega
    simp only [toSextets, fromSextets, e1]
  | case4 => rfl

/-- Base64 round trip: decoding the encoding of any byte string gives back
exactly those bytes. -/
theorem b64_roundtrip (bs : List Nat) (h : ∀ x ∈ bs, x < 256) :
    b64decodeStr (b64encodeStr bs) = some bs := by
  have hsex : ∀ s ∈ toSextets bs, s < 64 := toSextets_bound bs h
  have hne : ∀ c ∈ (toSextets bs).map encChar,
      (fun c => decide ¬(c = '=')) c = true := by
    intro c hc
    simp only [List.mem_map] at hc
    obtain ⟨s, hs, rfl⟩ := hc
    exact decide_eq_true (encChar_ne_pad s (hsex s hs))
  unfold b64encodeStr b64decodeStr
  rw [toList_mk]
  rw [takeWhile_append_all _ _ _ hne, dropWhile_append_all _ _ _ hne]
  rw [padChars_takeWhile, padChars_check, List.append_nil]
  simp only [if_true]
  rw [decChars_map_encChar _ hsex]
  exact fromSextets_toSextets bs h

/-- Sanity vector: base64 of the bytes of `"Man"`. -/
theorem b64encode_vector : b64encodeStr [77, 97, 110] = "TWFu" := rfl

/-- Sanity vector: the MD5 digest of the empty byte string (RFC 1321). -/
theorem md5hex_empty : md5hex [] = "d41d8cd98f00b204e9800998ecf8427e" := by
  rfl

/-- Sanity vector: the MD5 digest of the bytes of `"abc"` (RFC 1321). -/
theorem md5hex_abc : md5hex [97, 98, 99] = "900150983cd24fb0d6963f7d28e17f72" := by
  rfl

/-- Every index below 16 selects a character of the hex alphabet. -/
theorem hexChars_getD_mem : ∀ i, i < 16 → hexChars.getD i '0' ∈ hexChars := by
  decide

/-- Both characters `byteHex` produces lie in the lowercase hex alphabet. -/
theorem byteHex_mem (x : Nat) : ∀ c ∈ byteHex x, c ∈ hexChars := by
  intro c hc
  have h1 : x / 16 % 16 < 16 := Nat.mod_lt _ (by norm_num)
  have h2 : x % 16 < 16 := Nat.mod_lt _ (by norm_num)
  simp only [byteHex, List.mem_cons, List.not_mem_nil, or_false] at hc
  rcases hc with rfl | rfl
  · exact hexChars_getD_mem _ h1
  · exact hexChars_getD_mem _ h2

/-- Every character of an `md5hex` digest is a lowercase hex character. -/
theorem md5hex_lowercase (b : List Nat) :
    ∀ c ∈ (md5hex b).toList, c ∈ hexChars := by
  intro c hc
  unfold md5hex at hc
  rw [toList_mk] at hc
  simp only [List.mem_flatten, List.mem_map] at hc
  obtain ⟨l, ⟨x, hx, rfl⟩, hcl⟩ := hc
  exact byteHex_mem x c hcl

/-! ## Claim theorems -/

/-- C1: evaluating `send_news` at the failing input.  The empty article list
passes both asserts — the length check is only `len(articles) <= 8`, with no
lower bound, despite its own message `'Only support 1-8 articles'` — so a news
body with zero articles is built and handed to `_send`.  The claim (and the
assert message, and the spec's 1–8 invariant) says validation must fail for
0 articles; the code lets it through. -/
theorem send_news_accepts_zero_articles :
    send_news_model [] = Except.ok (news_body []) := rfl

/-- C2: for every content string `s`, the body built by `send_text` has
`msgtype = "text"` and `text.content = s` exactly, the body built by
`send_markdown` has `msgtype = "markdown"` and `markdown.content = s` exactly
(so reading the nested content field back from the built payload recovers `s`
— round-trip identity at the JSON-value level), and for `s = "Hello world"`
the text body is precisely the object
`{"msgtype": "text", "text": {"content": "Hello world"}}`. -/
theorem text_markdown_payload_roundtrip (s : String) :
    jget (text_body (PyVal.vStr s)) "msgtype" = some (PyVal.vStr "text") ∧
    (jget (text_body (PyVal.vStr s)) "text").bind (fun t => jget t "content") =
      some (PyVal.vStr s) ∧
    jget (markdown_body (PyVal.vStr s)) "msgtype" =
      some (PyVal.vStr "markdown") ∧
    (jget (markdown_body (PyVal.vStr s)) "markdown").bind
      (fun t => jget t "content") = some (PyVal.vStr s) ∧
    text_body (PyVal.vStr "Hello world") =
      PyVal.vDict [("msgtype", PyVal.vStr "text"),
                   ("text", PyVal.vDict [("content", PyVal.vStr "Hello world")])] :=
  ⟨rfl, rfl, rfl, rfl, rfl⟩

/-- C3: for every byte string `b` used as image content, the payload built by
`send_image` carries a base64 field that decodes back to exactly `b`, an md5
field equal to the hex MD5 digest of the same bytes `b`, and every character
of that digest is lowercase hexadecimal; both fields are computed from the
one `image_content` value with no transcoding in between. -/
theorem image_payload_base64_md5 (b : List Nat) (h : ∀ x ∈ b, x < 256) :
    b64decodeStr (b64encodeStr b) = some b ∧
    (jget (image_body b) "image").bind (fun i => jget i "base64") =
      some (PyVal.vStr (b64encodeStr b)) ∧
    (jget (image_body b) "image").bind (fun i => jget i "md5") =
      some (PyVal.vStr (md5hex b)) ∧
    (∀ c ∈ (md5hex b).toList, c ∈ hexChars) :=
  ⟨b64_roundtrip b h, rfl, rfl, md5hex_lowercase b⟩

/-- C3 witness: the theorem applied to the concrete byte string `[77, 97, 110]`. -/
theorem image_payload_base64_md5_witness :
    (∀ x ∈ [77, 97, 110], x < 256) ∧
    b64decodeStr (b64encodeStr [77, 97, 110]) = some [77, 97, 110] :=
  ⟨by decide, (image_payload_base64_md5 [77, 97, 110] (by decide)).1⟩

/-- C4: for every response, `_send` returns success exactly when the HTTP
status is 200 and the parsed body's `errmsg` field is the string `"ok"`
(any other combination trips one of the two asserts, a signalled failure),
and a call of `_send` issues exactly one HTTP POST, carrying the single
header `Content-Type: application/json`, with no retry. -/
theorem send_success_iff_200_ok (key : String) (body : PyVal) (status : Nat)
    (r : PyVal) :
    (send_check status r = Except.ok true ↔
      status = 200 ∧ jget r "errmsg" = some (PyVal.vStr "ok")) ∧
    send_requests key body =
      [{ url := robot_url key,
         headers := [("Content-Type", "application/json")], body := body }] ∧
    (send_requests key body).length = 1 := by
  refine ⟨?_, rfl, rfl⟩
  unfold send_check
  by_cases hs : status = 200
  · subst hs
    simp only [if_pos rfl, true_and]
    cases hj : jget r "errmsg" with
    | none => simp
    | some v =>
      cases v with
      | vStr s =>
        by_cases hok : s = "ok"
        · subst hok; simp
        · simp [hok]
      | vDict fields => simp
      | vList xs => simp
      | vNone => simp
      | vCoro p => simp
  · simp [hs]

/-- C5 counterexample: literal data can be supplied as the empty string
alongside a file path (e.g. `-d ""`), and then the literal is *not* the
content passed to `send_text` — `msg_data or ...` falls through to the
`read_file` branch instead — refuting the claim for that input. -/
theorem empty_literal_not_sent :
    sender_dispatch (fun _ => false) "text" (some "") (some "memo.txt") ≠
      Except.ok [SenderAction.sendText (Content.str "")] := by
  simp [sender_dispatch, resolveTM]

/-- C5 amended: for every *non-empty* literal data string supplied alongside
any file path, the literal is exactly the content passed to `send_text` /
`send_markdown`, and the file is never read: the outcome mentions no file and
is independent of the path and of the filesystem. -/
theorem literal_data_precedence (ex ex2 : String → Bool) (s : String)
    (p p2 : Option String) (h : s ≠ "") :
    sender_dispatch ex "text" (some s) p =
      Except.ok [SenderAction.sendText (Content.str s)] ∧
    sender_dispatch ex "markdown" (some s) p =
      Except.ok [SenderAction.sendMarkdown (Content.str s)] ∧
    sender_dispatch ex "text" (some s) p =
      sender_dispatch ex2 "text" (some s) p2 ∧
    sender_dispatch ex "markdown" (some s) p =
      sender_dispatch ex2 "markdown" (some s) p2 := by
  simp [sender_dispatch, resolveTM, h]

/-- C5 witness: the amended theorem applied to the literal `"hi"` and the
path `"memo.txt"`. -/
theorem literal_data_precedence_witness :
    ("hi" : String) ≠ "" ∧
    sender_dispatch (fun _ => true) "text" (some "hi") (some "memo.txt") =
      Except.ok [SenderAction.sendText (Content.str "hi")] :=
  ⟨by decide,
   (literal_data_precedence (fun _ => true) (fun _ => false) "hi"
     (some "memo.txt") none (by decide)).1⟩

/-- C6: evaluating the text/markdown resolution at the failing input (no
literal data, non-existent path).  The coroutine body `read_file` would
return `""` for a missing path, but `sender` never awaits it: the value
passed into payload construction is the un-awaited coroutine object, not the
empty string, and JSON serialization of the body later fails.  The claim
(and the spec) says the resolved content is the empty string. -/
theorem missing_file_resolves_to_coroutine :
    resolveTM none (some "/no/such/file.md") =
      Content.coro (some "/no/such/file.md") ∧
    read_file (fun _ => none) "/no/such/file.md" = "" ∧
    Content.coro (some "/no/such/file.md") ≠ Content.str "" :=
  ⟨rfl, rfl, by decide⟩

/-- C7 counterexample: the empty string is a file path string the CLI can
pass (`-f ""`); it does not exist on any filesystem, yet the image branch
does not fetch it as a remote URL — `send_image` receives a falsy
`remote_url` and raises instead of issuing a GET — refuting the claim for
that input. -/
theorem empty_image_path_not_fetched :
    sender_image_model (fun _ => none) (fun _ => []) "" =
      Except.error "Need provide local_file: str or remote_url: str" ∧
    sender_image_model (fun _ => none) (fun _ => []) "" ≠
      Except.ok (ImgSource.httpGet "", image_body []) :=
  ⟨rfl, fun hc => Except.noConfusion hc⟩

/-- C7 amended: for every *non-empty* file path string, the image branch
first interprets it as a local path — if a file exists there, the raw bytes
are read from disk in one file read — and otherwise treats the same string
as a remote URL fetched by one HTTP GET, building the image body from
exactly the bytes obtained. -/
theorem image_path_resolution (fs : String → Option (List Nat))
    (web : String → List Nat) (path : String) (bs : List Nat)
    (h : path ≠ "") :
    (fs path = some bs →
      sender_image_model fs web path =
        Except.ok (ImgSource.fileRead path, image_body bs)) ∧
    (fs path = none →
      sender_image_model fs web path =
        Except.ok (ImgSource.httpGet path, image_body (web path))) := by
  constructor
  · intro hf
    simp [sender_image_model, send_image_model, truthyOpt, hf, h]
  · intro hf
    simp [sender_image_model, send_image_model, truthyOpt, hf, h]

/-- C7 witness: the amended theorem applied to an existing local path and to
a URL absent from the filesystem. -/
theorem image_path_resolution_witness :
    ("img.png" : String) ≠ "" ∧
    sender_image_model (fun q => if q = "img.png" then some [1, 2] else none)
        (fun _ => [3]) "img.png" =
      Except.ok (ImgSource.fileRead "img.png", image_body [1, 2]) ∧
    ("http://e.com/a.png" : String) ≠ "" ∧
    sender_image_model (fun _ => none) (fun _ => [3]) "http://e.com/a.png" =
      Except.ok (ImgSource.httpGet "http://e.com/a.png", image_body [3]) :=
  ⟨by decide,
   (image_path_resolution (fun q => if q = "img.png" then some [1, 2] else none)
     (fun _ => [3]) "img.png" [1, 2] (by decide)).1 (by simp),
   by decide,
   (image_path_resolution (fun _ => none) (fun _ => [3]) "http://e.com/a.png"
     [1, 2] (by decide)).2 rfl⟩

/-- C8: whenever neither literal data nor a file path is supplied, the
validation prefix of `main` stops with a configuration error; `main`
constructs the robot and calls `sender` — the only place any HTTP request
originates — only after `main_check` returns `ok`, so no network activity
happens on this path. -/
theorem config_error_before_network (a : Args) (hd : a.data = none)
    (hf : a.file = none) :
    ∃ e, main_check a = Except.error e := by
  unfold main_check
  rw [hd, hf]
  cases hk : (!truthyOpt a.key || !truthyOpt a.type) with
  | true => exact ⟨ConfigError.missingKeyOrType, by simp [hk]⟩
  | false => exact ⟨ConfigError.missingDataAndFile, by simp [hk, truthyOpt]⟩

/-- C8 witness: the theorem applied to arguments with key and type present
but no data and no file. -/
theorem config_error_before_network_witness :
    (Args.mk (some "k") (some "text") none none).data = none ∧
    (Args.mk (some "k") (some "text") none none).file = none ∧
    ∃ e, main_check (Args.mk (some "k") (some "text") none none) =
      Except.error e :=
  ⟨rfl, rfl, config_error_before_network
    (Args.mk (some "k") (some "text") none none) rfl rfl⟩

/-- C9: for every message type outside the four known ones, the if/elif
chain of `sender` matches no branch: no content is resolved, no `send_*`
call (hence no HTTP request) is made, no exception is raised, and the
coroutine returns normally with the empty action list. -/
theorem unknown_type_noop (ex : String → Bool) (t : String)
    (d f : Option String) (h : t ∉ ["text", "markdown", "image", "news"]) :
    sender_dispatch ex t d f = Except.ok [] := by
  simp only [List.mem_cons, List.not_mem_nil, or_false, not_or] at h
  obtain ⟨h1, h2, h3, h4⟩ := h
  simp [sender_dispatch, h1, h2, h3, h4]

/-- C9 witness: the theorem applied to the unknown type `"voice"`. -/
theorem unknown_type_noop_witness :
    ("voice" : String) ∉ ["text", "markdown", "image", "news"] ∧
    sender_dispatch (fun _ => false) "voice" (some "d") (some "f") =
      Except.ok [] :=
  ⟨by decide,
   unknown_type_noop (fun _ => false) "voice" (some "d") (some "f")
     (by decide)⟩

/-- C10: for every file path, supplying the literal data `""` behaves exactly
like supplying no literal data at all — `msg_data or read_file(...)` falls
through to the file-path branch — so the empty literal is never the content
passed on, and literal-data precedence is limited to non-empty data. -/
theorem empty_literal_treated_as_absent (p : Option String) :
    resolveTM (some "") p = resolveTM none p ∧
    resolveTM (some "") p = Content.coro p ∧
    resolveTM (some "") p ≠ Content.str "" :=
  ⟨rfl, rfl, fun hc => Content.noConfusion hc⟩

end Weixin
